import Mathlib

/-
  Verification of the LLM Council debate orchestrator.

  Shallow embedding of the orchestration core of the repository:
    - prompts.py        : fixed system prompts and per-round user-message builders
    - config.py         : configuration records
    - orchestrator.py   : DebateOrchestrator (init, _call_model, conduct_debate)
                          and format_debate_output

  Remote model endpoints are modelled as oracles: a function from the attempt
  index to the outcome of that attempt.  Stateful control flow (the retry loop,
  the five-call debate sequence) is embedded as explicit trace-producing
  functions, so that every issued request and every sleep is visible in the
  returned event list.  Apostrophes inside string literals are written with the
  escape \x27; the string values are byte-for-byte those of the Python source.
-/

namespace Debate

/-! ## prompts.py -/

/-- Literal constant MEMBER_A_PROMPT of prompts.py. -/
def MEMBER_A_PROMPT : String :=
  "You are Council Member A, an analytical AI expert who provides thorough, \ndata-driven analysis. Your role is to:\n\n1. In Round 1: Provide your independent analysis of the query with clear reasoning\n2. In Round 2: Review Council Member B\x27s perspective and either:\n   - Challenge their assumptions with evidence\n   - Agree and strengthen their points\n   - Offer alternative viewpoints\n\nBe direct, analytical, and evidence-based in your responses."

/-- Literal constant MEMBER_B_PROMPT of prompts.py. -/
def MEMBER_B_PROMPT : String :=
  "You are Council Member B, a critical thinking AI expert who questions \nassumptions and explores edge cases. Your role is to:\n\n1. In Round 1: Provide your independent analysis focusing on risks, limitations, and alternatives\n2. In Round 2: Review Council Member A\x27s perspective and either:\n   - Point out overlooked considerations or flaws\n   - Acknowledge strong points\n   - Present contrarian views with reasoning\n\nBe skeptical, thorough, and constructively critical."

/-- Literal constant CHAIR_PROMPT of prompts.py. -/
def CHAIR_PROMPT : String :=
  "You are the Chair, the final decision maker who synthesizes the council\x27s debate.\n\nYour role is to review the ENTIRE debate thread and produce a structured final verdict with:\n\n## Areas of Complete Consensus\nList all points where both Council Members agreed, either initially or after debate.\n\n## Key Debates  \nHighlight areas where the members disagreed. For each:\n- State the disagreement clearly\n- Summarize Member A\x27s position and reasoning\n- Summarize Member B\x27s position and reasoning\n\n## The Verdict\nBased on the complete debate, provide your final decision/recommendation. Explain:\n- Which perspectives you\x27re adopting and why\n- How you\x27re resolving any disagreements\n- Your conclusive answer to the original query\n\nBe objective, balanced, and make clear final judgments."

/-- prompts.get_member_a_prompt. -/
def get_member_a_prompt : String := MEMBER_A_PROMPT

/-- prompts.get_member_b_prompt. -/
def get_member_b_prompt : String := MEMBER_B_PROMPT

/-- prompts.get_chair_prompt. -/
def get_chair_prompt : String := CHAIR_PROMPT

/-- prompts.get_round2_prompt_for_member_a: the f-string of prompts.py lines 79-84. -/
def get_round2_prompt_for_member_a (user_query member_b_response : String) : String :=
  "Original Query: " ++ user_query ++
  "\n\nCouncil Member B\x27s Analysis:\n" ++ member_b_response ++
  "\n\nNow provide your critique, counterarguments, or supporting arguments to Member B\x27s analysis."

/-- prompts.get_round2_prompt_for_member_b: the f-string of prompts.py lines 103-111. -/
def get_round2_prompt_for_member_b (user_query member_a_initial member_a_critique : String) : String :=
  "Original Query: " ++ user_query ++
  "\n\nCouncil Member A\x27s Initial Analysis:\n" ++ member_a_initial ++
  "\n\nCouncil Member A\x27s Critique of Your Analysis:\n" ++ member_a_critique ++
  "\n\nNow respond: critique Member A\x27s points and defend or refine your position."

/-- prompts.get_chair_synthesis_prompt: the f-string of prompts.py lines 134-152. -/
def get_chair_synthesis_prompt (user_query round1_member_a round1_member_b round2_member_a round2_member_b : String) : String :=
  "Original Query: " ++ user_query ++
  "\n\n=== FULL DEBATE TRANSCRIPT ===\n\nROUND 1 - Council Member A (Analytical):\n" ++ round1_member_a ++
  "\n\nROUND 1 - Council Member B (Critical):\n" ++ round1_member_b ++
  "\n\nROUND 2 - Member A\x27s Critique:\n" ++ round2_member_a ++
  "\n\nROUND 2 - Member B\x27s Response:\n" ++ round2_member_b ++
  "\n\n=== END TRANSCRIPT ===\n\nNow provide your structured final verdict following the format specified in your instructions."

/-! ## config.py -/

/-- config.ModelConfig: settings for one model deployment.  The Python field
temperature is a float that is only ever passed through unchanged; it is
modelled as a rational number. -/
structure ModelConfig where
  deployment_name : String
  temperature : Rat
  role : String
  display_name : String
deriving DecidableEq

/-- config.CouncilConfig.  api_key is Optional in the source (os.getenv may
return None). -/
structure CouncilConfig where
  project_endpoint : String
  api_key : Option String
  member_a : ModelConfig
  member_b : ModelConfig
  chair : ModelConfig
  timeout : Int
deriving DecidableEq

/-! ## orchestrator.py: request building and the retry loop -/

/-- One chat message in the request payload. -/
structure ChatMessage where
  role : String
  content : String
deriving DecidableEq

/-- The JSON payload of orchestrator.py lines 75-82. -/
structure RequestPayload where
  messages : List ChatMessage
  temperature : Rat
  max_tokens : Nat
deriving DecidableEq

/-- One outbound HTTP request as assembled by _call_model (orchestrator.py
lines 67-82): URL, the api-key header value, the Content-Type header, and the
JSON payload. -/
structure ModelRequest where
  url : String
  api_key : Option String
  content_type : String
  payload : RequestPayload
deriving DecidableEq

/-- Request assembly of _call_model, orchestrator.py lines 67-82 (everything
before the retry loop): builds the URL from the endpoint and deployment name,
the headers, and the payload with the two chat messages, the temperature, and
max_tokens fixed at 4000. -/
def build_request (config : CouncilConfig) (system_prompt user_message : String)
    (temperature : Rat) (model_name : String) : ModelRequest :=
  ⟨config.project_endpoint ++ "/openai/deployments/" ++ model_name ++ "/chat/completions?api-version=2024-10-21",
   config.api_key,
   "application/json",
   ⟨[⟨"system", system_prompt⟩, ⟨"user", user_message⟩], temperature, 4000⟩⟩

/-- Outcome of one attempt of the retry loop body, as seen by the two except
clauses of _call_model: either an asyncio.TimeoutError (whose str() is the
empty string in CPython), or any other exception carrying its str() text. -/
inductive CallError where
  | timeout
  | exc (msg : String)
deriving DecidableEq

/-- str() of the underlying per-attempt error: empty for a timeout. -/
def CallError.msg : CallError → String
  | .timeout => ""
  | .exc m => m

/-- Observable events of the retry loop: posting attempt n (0-based), or
awaiting asyncio.sleep for the given number of seconds. -/
inductive AttemptEvent where
  | attempt (n : Nat)
  | sleep (seconds : Nat)
deriving DecidableEq

/-- The message of the exception raised when the last attempt fails
(orchestrator.py lines 100 and 107): the timeout clause raises
"Model timed out after {max_retries} attempts" and the generic clause raises
"Model failed after {max_retries} attempts: {str(e)}". -/
def exhaust_msg (max_retries : Nat) : CallError → String
  | .timeout => "Model timed out after " ++ toString max_retries ++ " attempts"
  | .exc m => "Model failed after " ++ toString max_retries ++ " attempts: " ++ m

/-- The retry loop of _call_model (orchestrator.py lines 84-107),
for attempt in range(max_retries).  The oracle gives the outcome of each
attempt.  The first component is the trace of posts and sleeps; the second is
some (.ok text) on a successful return, some (.error msg) when the final
attempt raises, and none when the loop body never runs (Python falls through
the for loop and returns None, which only happens for max_retries = 0).
remaining is the number of loop iterations still to run; the top-level entry
point call_attempts starts it at max_retries with attempt = 0, exactly
mirroring range(max_retries). -/
def call_attempts_go {α : Type} (oracle : Nat → Except CallError α) (max_retries : Nat) :
    Nat → Nat → List AttemptEvent × Option (Except String α)
  | _attempt, 0 => ([], none)
  | attempt, remaining + 1 =>
    match oracle attempt with
    | .ok v => ([.attempt attempt], some (.ok v))
    | .error e =>
      if attempt + 1 < max_retries then
        let rest := call_attempts_go oracle max_retries (attempt + 1) remaining
        (.attempt attempt :: .sleep (2 ^ attempt) :: rest.1, rest.2)
      else
        ([.attempt attempt], some (.error (exhaust_msg max_retries e)))

/-- The whole retry loop of _call_model, started at attempt 0. -/
def call_attempts {α : Type} (oracle : Nat → Except CallError α) (max_retries : Nat) :
    List AttemptEvent × Option (Except String α) :=
  call_attempts_go oracle max_retries 0 max_retries

/-- Closed form of the retry loop at the default max_retries = 3 used by every
call site in conduct_debate. -/
theorem call_attempts_three {α : Type} (oracle : Nat → Except CallError α) :
    call_attempts oracle 3 =
      match oracle 0 with
      | .ok v => ([.attempt 0], some (.ok v))
      | .error _ =>
        match oracle 1 with
        | .ok v => ([.attempt 0, .sleep 1, .attempt 1], some (.ok v))
        | .error _ =>
          match oracle 2 with
          | .ok v => ([.attempt 0, .sleep 1, .attempt 1, .sleep 2, .attempt 2], some (.ok v))
          | .error e => ([.attempt 0, .sleep 1, .attempt 1, .sleep 2, .attempt 2],
              some (.error (exhaust_msg 3 e))) := by
  rcases h0 : oracle 0 with v0 | e0 <;>
    rcases h1 : oracle 1 with v1 | e1 <;>
      rcases h2 : oracle 2 with v2 | e2 <;>
        simp [call_attempts, call_attempts_go, h0, h1, h2]

/-! ## orchestrator.py: the orchestrator and the debate -/

/-- The DebateOrchestrator object: after construction it only holds its
configuration. -/
structure DebateOrchestrator where
  config : CouncilConfig
deriving DecidableEq

/-- Python truthiness of the api_key field: not self.config.api_key is true
exactly when the key is absent (None) or the empty string. -/
def apiKeyMissing (key : Option String) : Bool :=
  match key with
  | none => true
  | some k => k = ""

/-- DebateOrchestrator.__init__ (orchestrator.py lines 29-42): raises
ValueError when the configured api_key is falsy, otherwise the orchestrator is
constructed.  (The config-or-default argument is modelled as the explicit
config; the default just loads the global configuration.) -/
def DebateOrchestrator.init (config : CouncilConfig) : Except String DebateOrchestrator :=
  if apiKeyMissing config.api_key then
    .error "AZURE_AI_API_KEY is required. Please add your Azure AI Foundry API key to the .env file."
  else
    .ok ⟨config⟩

/-- The five model calls of one debate, keyed by round and participant. -/
inductive CallId where
  | round1_a
  | round1_b
  | round2_a
  | round2_b
  | round3_chair
deriving DecidableEq

/-- One logical model call as it appears in the debate trace: which call it
is, the request that every attempt of the call posts, and the attempt/sleep
events of its retry loop. -/
structure DebateEvent where
  id : CallId
  req : ModelRequest
  events : List AttemptEvent
deriving DecidableEq

/-- The responses dictionary of conduct_debate (orchestrator.py lines
123-129), one field per key. -/
structure Responses where
  round1_member_a : String
  round1_member_b : String
  round2_member_a : String
  round2_member_b : String
  round3_chair : String
deriving DecidableEq

/-- The wrapper applied by the outer try/except of conduct_debate
(orchestrator.py lines 233-234): raise Exception("Debate execution failed: "
+ str(e)). -/
def debate_fail (msg : String) : String := "Debate execution failed: " ++ msg

/-- Message of the TypeError that Python would raise at the len() diagnostic
print should _call_model ever return None (only possible with max_retries =
0); the branch is unreachable for the default max_retries = 3 used by every
call site below. -/
def NONE_LEN_MSG : String := "object of type \x27NoneType\x27 has no len()"

/-- DebateOrchestrator.conduct_debate (orchestrator.py lines 109-234).

The five model endpoints are an oracle per call id and attempt index.  Round 1
issues both member calls under asyncio.gather with return_exceptions=True, so
both retry loops run to completion before the results are inspected; the
result list is checked in order member_a first, then member_b (lines
159-162).  Rounds 2 and 3 are sequential; the first failure raises, and the
outer except wraps every raised message with the debate_fail prefix.  The
returned trace lists every logical call actually issued, in issue order, with
its request and its retry-loop events. -/
def conduct_debate (orch : DebateOrchestrator) (oracle : CallId → Nat → Except CallError String)
    (user_query : String) : List DebateEvent × Except String Responses :=
  let config := orch.config
  -- ROUND 1: both calls run under gather before either result is checked
  let reqA := build_request config get_member_a_prompt user_query
      config.member_a.temperature config.member_a.deployment_name
  let r1a := call_attempts (oracle .round1_a) 3
  let reqB := build_request config get_member_b_prompt user_query
      config.member_b.temperature config.member_b.deployment_name
  let r1b := call_attempts (oracle .round1_b) 3
  let tr1 : List DebateEvent := [⟨.round1_a, reqA, r1a.1⟩, ⟨.round1_b, reqB, r1b.1⟩]
  match r1a.2 with
  | none => (tr1, .error (debate_fail NONE_LEN_MSG))
  | some (.error e) => (tr1, .error (debate_fail e))
  | some (.ok a1) =>
  match r1b.2 with
  | none => (tr1, .error (debate_fail NONE_LEN_MSG))
  | some (.error e) => (tr1, .error (debate_fail e))
  | some (.ok b1) =>
  -- responses after the two round-1 assignments (lines 164-165)
  let critique_prompt_a := get_round2_prompt_for_member_a user_query b1
  let req2a := build_request config get_member_a_prompt critique_prompt_a
      config.member_a.temperature config.member_a.deployment_name
  let r2a := call_attempts (oracle .round2_a) 3
  let tr2a := tr1 ++ [⟨.round2_a, req2a, r2a.1⟩]
  match r2a.2 with
  | none => (tr2a, .error (debate_fail NONE_LEN_MSG))
  | some (.error e) => (tr2a, .error (debate_fail e))
  | some (.ok a2) =>
  let critique_prompt_b := get_round2_prompt_for_member_b user_query a1 a2
  let req2b := build_request config get_member_b_prompt critique_prompt_b
      config.member_b.temperature config.member_b.deployment_name
  let r2b := call_attempts (oracle .round2_b) 3
  let tr2b := tr2a ++ [⟨.round2_b, req2b, r2b.1⟩]
  match r2b.2 with
  | none => (tr2b, .error (debate_fail NONE_LEN_MSG))
  | some (.error e) => (tr2b, .error (debate_fail e))
  | some (.ok b2) =>
  let chair_prompt := get_chair_synthesis_prompt user_query a1 b1 a2 b2
  let req3 := build_request config get_chair_prompt chair_prompt
      config.chair.temperature config.chair.deployment_name
  let r3 := call_attempts (oracle .round3_chair) 3
  let tr3 := tr2b ++ [⟨.round3_chair, req3, r3.1⟩]
  match r3.2 with
  | none => (tr3, .error (debate_fail NONE_LEN_MSG))
  | some (.error e) => (tr3, .error (debate_fail e))
  | some (.ok c) => (tr3, .ok ⟨a1, b1, a2, b2, c⟩)

/-- format_debate_output (orchestrator.py lines 237-283): the f-string,
byte for byte, with the config passed explicitly (the Python default pulls
the global configuration object). -/
def format_debate_output (responses : Responses) (config : CouncilConfig) : String :=
  "#  LLM Council Debate\n\n##  Round 1: Independent Analysis\n\n###  " ++
  config.member_a.display_name ++ "\n" ++ responses.round1_member_a ++
  "\n\n---\n\n###  " ++ config.member_b.display_name ++ "\n" ++ responses.round1_member_b ++
  "\n\n---\n\n##  Round 2: Chain-of-Debate\n\n###  Member A\x27s Critique\n" ++
  responses.round2_member_a ++
  "\n\n---\n\n###  Member B\x27s Response\n" ++ responses.round2_member_b ++
  "\n\n---\n\n##  Round 3: Chair\x27s Final Verdict (" ++ config.chair.deployment_name ++
  ")\n\n" ++ responses.round3_chair ++ "\n"

/-! ## The body of one retry-loop attempt (orchestrator.py lines 86-92)

The oracle abstraction above summarises one attempt as ok-or-CallError.  The
definitions below embed what one attempt actually does with the HTTP response:
check the status, decode the body as JSON, and extract
result["choices"][0]["message"]["content"].  Any exception raised on the way
(bad status, undecodable body, missing key or index) is caught by the generic
except clause of the loop and so consumes one attempt of the same budget. -/

/-- A JSON value as returned by response.json().  Field names of an object
are assumed distinct, as they are in a decoded JSON document. -/
inductive Json where
  | null
  | bool (b : Bool)
  | num (n : Int)
  | str (s : String)
  | arr (elems : List Json)
  | obj (fields : List (String × Json))

/-- Exceptions Python raises while subscripting the decoded body.  str() of a
KeyError is the repr of the key (quoted for a string key, bare for an integer
key); str() of an IndexError is its message; TypeError message text varies
across CPython versions and is carried abstractly. -/
inductive PyErr where
  | keyError (key : String)
  | keyErrorNum (key : Int)
  | indexError (msg : String)
  | typeError (msg : String)

/-- str() of the subscripting exception. -/
def PyErr.toMsg : PyErr → String
  | .keyError k => "\x27" ++ k ++ "\x27"
  | .keyErrorNum k => toString k
  | .indexError m => m
  | .typeError m => m

/-- Python subscripting j[k] with a string key.  (The TypeError message texts
are those of CPython 3.12; no theorem below depends on them.) -/
def Json.getKey : Json → String → Except PyErr Json
  | .obj fields, k =>
    match fields.lookup k with
    | some v => .ok v
    | none => .error (.keyError k)
  | .arr _, _ => .error (.typeError "list indices must be integers or slices, not str")
  | .str _, _ => .error (.typeError "string indices must be integers, not \x27str\x27")
  | _, _ => .error (.typeError "object is not subscriptable")

/-- Python subscripting j[0] with index 0 as in the source.  A decoded JSON
object is a dict whose keys are all strings, so subscripting it with the
integer 0 always raises KeyError(0), whose str() is the bare 0. -/
def Json.getIdxZero : Json → Except PyErr Json
  | .arr elems =>
    match elems with
    | [] => .error (.indexError "list index out of range")
    | v :: _ => .ok v
  | .obj _ => .error (.keyErrorNum 0)
  | .str s =>
    match s.data with
    | [] => .error (.indexError "string index out of range")
    | c :: _ => .ok (.str (String.mk [c]))
  | _ => .error (.typeError "object is not subscriptable")

/-- result["choices"][0]["message"]["content"] of orchestrator.py line 89,
returning whatever JSON value sits there (Python does not check that it is a
string). -/
def extract_content (result : Json) : Except PyErr Json := do
  let choices ← result.getKey "choices"
  let first ← choices.getIdxZero
  let message ← first.getKey "message"
  message.getKey "content"

/-- Raw outcome of one posted attempt, before the loop body inspects it:
a per-attempt timeout, an exception from the transport itself, or an HTTP
response with its status, its body text (used by response.text() in the
non-200 branch) and the result of response.json() (error: the str() of the
decode exception, which depends on the body and is carried abstractly). -/
inductive HttpOutcome where
  | timeout
  | transportError (msg : String)
  | response (status : Nat) (bodyText : String) (body : Except String Json)

/-- The try-block body of one attempt (orchestrator.py lines 86-92): a 200
status leads to JSON decoding and content extraction, whose failures raise
and are caught by the generic except clause; any other status raises
"API returned status {status}: {body text}". -/
def attempt_outcome (o : HttpOutcome) : Except CallError Json :=
  match o with
  | .timeout => .error .timeout
  | .transportError m => .error (.exc m)
  | .response status bodyText body =>
    if status = 200 then
      match body with
      | .error m => .error (.exc m)
      | .ok result =>
        match extract_content result with
        | .ok content => .ok content
        | .error e => .error (.exc e.toMsg)
    else
      .error (.exc ("API returned status " ++ toString status ++ ": " ++ bodyText))

/-- The retry loop run over the embedded attempt body: the invoker seen from
the HTTP layer. -/
def call_attempts_http (raw : Nat → HttpOutcome) (max_retries : Nat) :
    List AttemptEvent × Option (Except String Json) :=
  call_attempts (fun n => attempt_outcome (raw n)) max_retries

/-! ## Substring containment -/

/-- s contains sub as a contiguous substring. -/
def textHas (s sub : String) : Prop := sub.data <:+: s.data

instance (s sub : String) : Decidable (textHas s sub) := by
  unfold textHas; infer_instance

/-- Containment in an explicit concatenation, left piece and right piece
given. -/
theorem textHas_of_append (l sub r : String) : textHas (l ++ sub ++ r) sub := by
  refine ⟨l.data, r.data, ?_⟩
  simp [String.data_append]

/-- Containment is preserved by wrapping with more text on both sides. -/
theorem textHas_mono (l s r sub : String) (h : textHas s sub) :
    textHas (l ++ s ++ r) sub := by
  rcases h with ⟨x, y, hxy⟩
  exact ⟨l.data ++ x, y ++ r.data, by simp [String.data_append, ← hxy]⟩

/-! ## Helper lemmas: substring containment in concatenations -/

/-- A string contains its suffix. -/
theorem textHas_append_right (l sub : String) : textHas (l ++ sub) sub :=
  ⟨l.data, [], by simp [String.data_append]⟩

/-- A string contains its prefix. -/
theorem textHas_append_left (sub r : String) : textHas (sub ++ r) sub :=
  ⟨[], r.data, by simp [String.data_append]⟩

/-- Containment survives appending on the right. -/
theorem textHas_extend_right (l r sub : String) (h : textHas l sub) :
    textHas (l ++ r) sub := by
  rcases h with ⟨x, y, hxy⟩
  exact ⟨x, y ++ r.data, by simp [String.data_append, ← hxy]⟩

/-- Containment survives prepending on the left. -/
theorem textHas_extend_left (l r sub : String) (h : textHas r sub) :
    textHas (l ++ r) sub := by
  rcases h with ⟨x, y, hxy⟩
  exact ⟨l.data ++ x, y, by simp [String.data_append, ← hxy]⟩

/-! ## Closed-form scenario lemmas for the retry loop and the debate -/

/-- At the default budget of 3 attempts, the loop result is never the Python
None fall-through. -/
theorem call_attempts_three_shape {α : Type} (oracle : Nat → Except CallError α) :
    (∃ v, (call_attempts oracle 3).2 = some (Except.ok v)) ∨
    (∃ e, oracle 2 = Except.error e ∧
      (call_attempts oracle 3).2 = some (Except.error (exhaust_msg 3 e))) := by
  rw [call_attempts_three]
  rcases h0 : oracle 0 with e0 | v0
  · rcases h1 : oracle 1 with e1 | v1
    · rcases h2 : oracle 2 with e2 | v2
      · exact Or.inr ⟨e2, rfl, by simp [h0, h1, h2]⟩
      · exact Or.inl ⟨v2, by simp [h0, h1, h2]⟩
    · exact Or.inl ⟨v1, by simp [h0, h1]⟩
  · exact Or.inl ⟨v0, by simp [h0]⟩

/-- Scenario: the round1_a call exhausts its retries.  Both round-1 calls
appear in the trace (gather runs both to completion); no later call is
issued; the debate fails with the member_a error wrapped. -/
theorem conduct_debate_r1a_err (orch : DebateOrchestrator)
    (oracle : CallId → Nat → Except CallError String) (user_query e : String)
    (hA : (call_attempts (oracle CallId.round1_a) 3).2 = some (Except.error e)) :
    conduct_debate orch oracle user_query =
      ([⟨CallId.round1_a,
         build_request orch.config get_member_a_prompt user_query
           orch.config.member_a.temperature orch.config.member_a.deployment_name,
         (call_attempts (oracle CallId.round1_a) 3).1⟩,
        ⟨CallId.round1_b,
         build_request orch.config get_member_b_prompt user_query
           orch.config.member_b.temperature orch.config.member_b.deployment_name,
         (call_attempts (oracle CallId.round1_b) 3).1⟩],
       Except.error (debate_fail e)) := by
  simp only [conduct_debate]
  rw [hA]

/-- Scenario: round1_a succeeds but round1_b exhausts its retries.  Same
trace as above; the debate fails with the member_b error wrapped. -/
theorem conduct_debate_r1b_err (orch : DebateOrchestrator)
    (oracle : CallId → Nat → Except CallError String) (user_query a1 e : String)
    (hA : (call_attempts (oracle CallId.round1_a) 3).2 = some (Except.ok a1))
    (hB : (call_attempts (oracle CallId.round1_b) 3).2 = some (Except.error e)) :
    conduct_debate orch oracle user_query =
      ([⟨CallId.round1_a,
         build_request orch.config get_member_a_prompt user_query
           orch.config.member_a.temperature orch.config.member_a.deployment_name,
         (call_attempts (oracle CallId.round1_a) 3).1⟩,
        ⟨CallId.round1_b,
         build_request orch.config get_member_b_prompt user_query
           orch.config.member_b.temperature orch.config.member_b.deployment_name,
         (call_attempts (oracle CallId.round1_b) 3).1⟩],
       Except.error (debate_fail e)) := by
  simp only [conduct_debate]
  rw [hA, hB]

/-- Scenario: round 1 succeeds, the round-2 member_a call exhausts its
retries.  The trace stops after the round2_a call; the debate fails. -/
theorem conduct_debate_r2a_err (orch : DebateOrchestrator)
    (oracle : CallId → Nat → Except CallError String) (user_query a1 b1 e : String)
    (hA : (call_attempts (oracle CallId.round1_a) 3).2 = some (Except.ok a1))
    (hB : (call_attempts (oracle CallId.round1_b) 3).2 = some (Except.ok b1))
    (hC : (call_attempts (oracle CallId.round2_a) 3).2 = some (Except.error e)) :
    conduct_debate orch oracle user_query =
      ([⟨CallId.round1_a,
         build_request orch.config get_member_a_prompt user_query
           orch.config.member_a.temperature orch.config.member_a.deployment_name,
         (call_attempts (oracle CallId.round1_a) 3).1⟩,
        ⟨CallId.round1_b,
         build_request orch.config get_member_b_prompt user_query
           orch.config.member_b.temperature orch.config.member_b.deployment_name,
         (call_attempts (oracle CallId.round1_b) 3).1⟩,
        ⟨CallId.round2_a,
         build_request orch.config get_member_a_prompt
           (get_round2_prompt_for_member_a user_query b1)
           orch.config.member_a.temperature orch.config.member_a.deployment_name,
         (call_attempts (oracle CallId.round2_a) 3).1⟩],
       Except.error (debate_fail e)) := by
  simp only [conduct_debate]
  rw [hA, hB, hC]
  simp

/-- Scenario: round 1 and round2_a succeed, the round-2 member_b call
exhausts its retries.  The trace stops after the round2_b call; the chair is
never invoked; the debate fails. -/
theorem conduct_debate_r2b_err (orch : DebateOrchestrator)
    (oracle : CallId → Nat → Except CallError String) (user_query a1 b1 a2 e : String)
    (hA : (call_attempts (oracle CallId.round1_a) 3).2 = some (Except.ok a1))
    (hB : (call_attempts (oracle CallId.round1_b) 3).2 = some (Except.ok b1))
    (hC : (call_attempts (oracle CallId.round2_a) 3).2 = some (Except.ok a2))
    (hD : (call_attempts (oracle CallId.round2_b) 3).2 = some (Except.error e)) :
    conduct_debate orch oracle user_query =
      ([⟨CallId.round1_a,
         build_request orch.config get_member_a_prompt user_query
           orch.config.member_a.temperature orch.config.member_a.deployment_name,
         (call_attempts (oracle CallId.round1_a) 3).1⟩,
        ⟨CallId.round1_b,
         build_request orch.config get_member_b_prompt user_query
           orch.config.member_b.temperature orch.config.member_b.deployment_name,
         (call_attempts (oracle CallId.round1_b) 3).1⟩,
        ⟨CallId.round2_a,
         build_request orch.config get_member_a_prompt
           (get_round2_prompt_for_member_a user_query b1)
           orch.config.member_a.temperature orch.config.member_a.deployment_name,
         (call_attempts (oracle CallId.round2_a) 3).1⟩,
        ⟨CallId.round2_b,
         build_request orch.config get_member_b_prompt
           (get_round2_prompt_for_member_b user_query a1 a2)
           orch.config.member_b.temperature orch.config.member_b.deployment_name,
         (call_attempts (oracle CallId.round2_b) 3).1⟩],
       Except.error (debate_fail e)) := by
  simp only [conduct_debate]
  rw [hA, hB, hC, hD]
  simp

/-- Scenario: everything up to round2_b succeeds, the chair call exhausts its
retries.  All five calls are in the trace; the debate fails. -/
theorem conduct_debate_r3_err (orch : DebateOrchestrator)
    (oracle : CallId → Nat → Except CallError String) (user_query a1 b1 a2 b2 e : String)
    (hA : (call_attempts (oracle CallId.round1_a) 3).2 = some (Except.ok a1))
    (hB : (call_attempts (oracle CallId.round1_b) 3).2 = some (Except.ok b1))
    (hC : (call_attempts (oracle CallId.round2_a) 3).2 = some (Except.ok a2))
    (hD : (call_attempts (oracle CallId.round2_b) 3).2 = some (Except.ok b2))
    (hE : (call_attempts (oracle CallId.round3_chair) 3).2 = some (Except.error e)) :
    conduct_debate orch oracle user_query =
      ([⟨CallId.round1_a,
         build_request orch.config get_member_a_prompt user_query
           orch.config.member_a.temperature orch.config.member_a.deployment_name,
         (call_attempts (oracle CallId.round1_a) 3).1⟩,
        ⟨CallId.round1_b,
         build_request orch.config get_member_b_prompt user_query
           orch.config.member_b.temperature orch.config.member_b.deployment_name,
         (call_attempts (oracle CallId.round1_b) 3).1⟩,
        ⟨CallId.round2_a,
         build_request orch.config get_member_a_prompt
           (get_round2_prompt_for_member_a user_query b1)
           orch.config.member_a.temperature orch.config.member_a.deployment_name,
         (call_attempts (oracle CallId.round2_a) 3).1⟩,
        ⟨CallId.round2_b,
         build_request orch.config get_member_b_prompt
           (get_round2_prompt_for_member_b user_query a1 a2)
           orch.config.member_b.temperature orch.config.member_b.deployment_name,
         (call_attempts (oracle CallId.round2_b) 3).1⟩,
        ⟨CallId.round3_chair,
         build_request orch.config get_chair_prompt
           (get_chair_synthesis_prompt user_query a1 b1 a2 b2)
           orch.config.chair.temperature orch.config.chair.deployment_name,
         (call_attempts (oracle CallId.round3_chair) 3).1⟩],
       Except.error (debate_fail e)) := by
  simp only [conduct_debate]
  rw [hA, hB, hC, hD, hE]
  simp

/-- Scenario: all five calls succeed.  The debate returns all five response
texts. -/
theorem conduct_debate_all_ok (orch : DebateOrchestrator)
    (oracle : CallId → Nat → Except CallError String) (user_query a1 b1 a2 b2 c : String)
    (hA : (call_attempts (oracle CallId.round1_a) 3).2 = some (Except.ok a1))
    (hB : (call_attempts (oracle CallId.round1_b) 3).2 = some (Except.ok b1))
    (hC : (call_attempts (oracle CallId.round2_a) 3).2 = some (Except.ok a2))
    (hD : (call_attempts (oracle CallId.round2_b) 3).2 = some (Except.ok b2))
    (hE : (call_attempts (oracle CallId.round3_chair) 3).2 = some (Except.ok c)) :
    conduct_debate orch oracle user_query =
      ([⟨CallId.round1_a,
         build_request orch.config get_member_a_prompt user_query
           orch.config.member_a.temperature orch.config.member_a.deployment_name,
         (call_attempts (oracle CallId.round1_a) 3).1⟩,
        ⟨CallId.round1_b,
         build_request orch.config get_member_b_prompt user_query
           orch.config.member_b.temperature orch.config.member_b.deployment_name,
         (call_attempts (oracle CallId.round1_b) 3).1⟩,
        ⟨CallId.round2_a,
         build_request orch.config get_member_a_prompt
           (get_round2_prompt_for_member_a user_query b1)
           orch.config.member_a.temperature orch.config.member_a.deployment_name,
         (call_attempts (oracle CallId.round2_a) 3).1⟩,
        ⟨CallId.round2_b,
         build_request orch.config get_member_b_prompt
           (get_round2_prompt_for_member_b user_query a1 a2)
           orch.config.member_b.temperature orch.config.member_b.deployment_name,
         (call_attempts (oracle CallId.round2_b) 3).1⟩,
        ⟨CallId.round3_chair,
         build_request orch.config get_chair_prompt
           (get_chair_synthesis_prompt user_query a1 b1 a2 b2)
           orch.config.chair.temperature orch.config.chair.deployment_name,
         (call_attempts (oracle CallId.round3_chair) 3).1⟩],
       Except.ok ⟨a1, b1, a2, b2, c⟩) := by
  simp only [conduct_debate]
  rw [hA, hB, hC, hD, hE]
  simp

/-! ## Concrete fixtures used by the witness and counterexample theorems -/

/-- A concrete configuration (the deployment names, display names and
temperatures are the defaults of config.from_env). -/
def testConfig : CouncilConfig :=
  ⟨"https://example.services.ai.azure.com/api/projects/proj",
   some "test-key",
   ⟨"gpt-4.1", 7/10, "analytical", "Council Member A (Analytical - GPT-4.1)"⟩,
   ⟨"DeepSeek-V3.1", 7/10, "critical", "Council Member B (Critical - DeepSeek-V3.1)"⟩,
   ⟨"grok-3", 3/10, "chair", "Chair (Grok-3)"⟩,
   60⟩

/-- The orchestrator constructed from the concrete configuration. -/
def testOrch : DebateOrchestrator := ⟨testConfig⟩

/-- Endpoints that answer every call on the first attempt. -/
def okOracle : CallId → Nat → Except CallError String :=
  fun id _ =>
    match id with
    | .round1_a => .ok "A1"
    | .round1_b => .ok "B1"
    | .round2_a => .ok "A2"
    | .round2_b => .ok "B2"
    | .round3_chair => .ok "C1"

/-- Endpoints where every attempt of the round1_b call fails and everything
else succeeds. -/
def failBOracle : CallId → Nat → Except CallError String :=
  fun id _ =>
    match id with
    | .round1_b => .error (.exc "boom")
    | _ => okOracle id 0

/-- Endpoints where every attempt of the round1_a call fails and everything
else succeeds. -/
def failAOracle : CallId → Nat → Except CallError String :=
  fun id _ =>
    match id with
    | .round1_a => .error (.exc "fail-a")
    | _ => okOracle id 0

/-- Endpoints where both round-1 calls fail every attempt, with different
messages. -/
def failBothOracle : CallId → Nat → Except CallError String :=
  fun id _ =>
    match id with
    | .round1_a => .error (.exc "fail-a")
    | .round1_b => .error (.exc "fail-b")
    | _ => okOracle id 0

/-- Endpoints where every attempt of the round2_b call fails and everything
else succeeds. -/
def fail2BOracle : CallId → Nat → Except CallError String :=
  fun id _ =>
    match id with
    | .round2_b => .error (.exc "late-boom")
    | _ => okOracle id 0

/-- A single-call endpoint that fails every attempt. -/
def failAllOracle : Nat → Except CallError String := fun _ => .error (.exc "boom")

/-- A single-call endpoint that succeeds immediately. -/
def okNowOracle : Nat → Except CallError String := fun _ => .ok "hi"

/-! ## Claims -/

/-- C2: for every query text and prior-round response texts, the round-2
message for member A literally contains the member B round-1 text; the round-2
message for member B literally contains the member A round-1 text and the member
A round-2 critique; and the chair round-3 message literally contains all
four prior response texts. -/
theorem round_messages_contain_dependencies (user_query r1a r1b r2a r2b : String) :
    textHas (get_round2_prompt_for_member_a user_query r1b) r1b
    ∧ textHas (get_round2_prompt_for_member_b user_query r1a r2a) r1a
    ∧ textHas (get_round2_prompt_for_member_b user_query r1a r2a) r2a
    ∧ textHas (get_chair_synthesis_prompt user_query r1a r1b r2a r2b) r1a
    ∧ textHas (get_chair_synthesis_prompt user_query r1a r1b r2a r2b) r1b
    ∧ textHas (get_chair_synthesis_prompt user_query r1a r1b r2a r2b) r2a
    ∧ textHas (get_chair_synthesis_prompt user_query r1a r1b r2a r2b) r2b := by
  refine ⟨?_, ?_, ?_, ?_, ?_, ?_, ?_⟩
  · exact textHas_extend_right _ _ _ (textHas_append_right _ _)
  · exact textHas_extend_right _ _ _ (textHas_extend_right _ _ _
      (textHas_extend_right _ _ _ (textHas_append_right _ _)))
  · exact textHas_extend_right _ _ _ (textHas_append_right _ _)
  · exact textHas_extend_right _ _ _ (textHas_extend_right _ _ _
      (textHas_extend_right _ _ _ (textHas_extend_right _ _ _
      (textHas_extend_right _ _ _ (textHas_extend_right _ _ _
      (textHas_extend_right _ _ _ (textHas_append_right _ _)))))))
  · exact textHas_extend_right _ _ _ (textHas_extend_right _ _ _
      (textHas_extend_right _ _ _ (textHas_extend_right _ _ _
      (textHas_extend_right _ _ _ (textHas_append_right _ _)))))
  · exact textHas_extend_right _ _ _ (textHas_extend_right _ _ _
      (textHas_extend_right _ _ _ (textHas_append_right _ _)))
  · exact textHas_extend_right _ _ _ (textHas_append_right _ _)

/-- C3: when every attempt of one call fails, the invoker makes exactly 3
attempts, sleeping 1 second before the second and 2 seconds before the third,
and raises an error that mentions the exhausted budget and contains the last
underlying error message; as soon as one attempt succeeds, it returns with
no further attempts. -/
theorem invoker_retry_policy {α : Type} (oracle : Nat → Except CallError α) :
    ((∀ n, n < 3 → ∃ e, oracle n = Except.error e) →
      ∃ e, oracle 2 = Except.error e
        ∧ call_attempts oracle 3 =
            ([AttemptEvent.attempt 0, AttemptEvent.sleep 1, AttemptEvent.attempt 1,
              AttemptEvent.sleep 2, AttemptEvent.attempt 2],
             some (Except.error (exhaust_msg 3 e)))
        ∧ textHas (exhaust_msg 3 e) (CallError.msg e)
        ∧ textHas (exhaust_msg 3 e) "after 3 attempts")
    ∧ (∀ v, oracle 0 = Except.ok v →
        call_attempts oracle 3 = ([AttemptEvent.attempt 0], some (Except.ok v)))
    ∧ (∀ e0 v, oracle 0 = Except.error e0 → oracle 1 = Except.ok v →
        call_attempts oracle 3 =
          ([AttemptEvent.attempt 0, AttemptEvent.sleep 1, AttemptEvent.attempt 1],
           some (Except.ok v)))
    ∧ (∀ e0 e1 v, oracle 0 = Except.error e0 → oracle 1 = Except.error e1 →
        oracle 2 = Except.ok v →
        call_attempts oracle 3 =
          ([AttemptEvent.attempt 0, AttemptEvent.sleep 1, AttemptEvent.attempt 1,
            AttemptEvent.sleep 2, AttemptEvent.attempt 2],
           some (Except.ok v))) := by
  refine ⟨?_, ?_, ?_, ?_⟩
  · intro h
    obtain ⟨e0, h0⟩ := h 0 (by norm_num)
    obtain ⟨e1, h1⟩ := h 1 (by norm_num)
    obtain ⟨e2, h2⟩ := h 2 (by norm_num)
    refine ⟨e2, h2, ?_, ?_, ?_⟩
    · rw [call_attempts_three]; simp [h0, h1, h2]
    · rcases e2 with _ | m
      · exact ⟨[], (exhaust_msg 3 CallError.timeout).data, by simp [CallError.msg]⟩
      · exact textHas_append_right _ m
    · rcases e2 with _ | m
      · exact (by decide :
          textHas "Model timed out after 3 attempts" "after 3 attempts")
      · have hsplit : ("Model failed after 3 attempts: " : String) =
            "Model failed " ++ "after 3 attempts" ++ ": " := by decide
        show textHas ("Model failed after 3 attempts: " ++ m) "after 3 attempts"
        rw [hsplit]
        exact textHas_extend_right _ _ _
          (textHas_extend_right _ _ _ (textHas_append_right _ _))
  · intro v h0
    rw [call_attempts_three]; simp [h0]
  · intro e0 v h0 h1
    rw [call_attempts_three]; simp [h0, h1]
  · intro e0 e1 v h0 h1 h2
    rw [call_attempts_three]; simp [h0, h1, h2]

/-- Witness for C3: a call failing all attempts with message boom makes
exactly the attempt/sleep sequence and surfaces the wrapped message; a call
succeeding immediately makes one attempt. -/
theorem invoker_retry_policy_witness :
    call_attempts failAllOracle 3 =
      ([AttemptEvent.attempt 0, AttemptEvent.sleep 1, AttemptEvent.attempt 1,
        AttemptEvent.sleep 2, AttemptEvent.attempt 2],
       some (Except.error "Model failed after 3 attempts: boom"))
    ∧ call_attempts okNowOracle 3 = ([AttemptEvent.attempt 0], some (Except.ok "hi")) := by
  constructor
  · obtain ⟨e, he, htr, -, -⟩ :=
      (invoker_retry_policy failAllOracle).1 (fun n _ => ⟨.exc "boom", rfl⟩)
    have hee : CallError.exc "boom" = e := by
      have h2 : failAllOracle 2 = Except.error (CallError.exc "boom") := rfl
      rw [h2] at he
      exact Except.error.inj he
    rw [← hee] at htr
    exact htr
  · exact (invoker_retry_policy okNowOracle).2.1 "hi" rfl

/-- Every event of a debate trace posts a request assembled by build_request
over the orchestrator configuration (helper shared by several claims). -/
theorem conduct_debate_req_from_build (orch : DebateOrchestrator)
    (oracle : CallId → Nat → Except CallError String) (user_query : String) :
    ∀ ev ∈ (conduct_debate orch oracle user_query).1,
      ∃ sp um t mn, ev.req = build_request orch.config sp um t mn := by
  intro ev hev
  rcases call_attempts_three_shape (oracle CallId.round1_a) with ⟨a1, hA⟩ | ⟨eA, -, hA⟩
  · rcases call_attempts_three_shape (oracle CallId.round1_b) with ⟨b1, hB⟩ | ⟨eB, -, hB⟩
    · rcases call_attempts_three_shape (oracle CallId.round2_a) with ⟨a2, hC⟩ | ⟨eC, -, hC⟩
      · rcases call_attempts_three_shape (oracle CallId.round2_b) with ⟨b2, hD⟩ | ⟨eD, -, hD⟩
        · rcases call_attempts_three_shape (oracle CallId.round3_chair) with ⟨c, hE⟩ | ⟨eE, -, hE⟩
          · rw [conduct_debate_all_ok orch oracle user_query a1 b1 a2 b2 c hA hB hC hD hE] at hev
            simp at hev
            rcases hev with h | h | h | h | h <;> subst h <;> exact ⟨_, _, _, _, rfl⟩
          · rw [conduct_debate_r3_err orch oracle user_query a1 b1 a2 b2 _ hA hB hC hD hE] at hev
            simp at hev
            rcases hev with h | h | h | h | h <;> subst h <;> exact ⟨_, _, _, _, rfl⟩
        · rw [conduct_debate_r2b_err orch oracle user_query a1 b1 a2 _ hA hB hC hD] at hev
          simp at hev
          rcases hev with h | h | h | h <;> subst h <;> exact ⟨_, _, _, _, rfl⟩
      · rw [conduct_debate_r2a_err orch oracle user_query a1 b1 _ hA hB hC] at hev
        simp at hev
        rcases hev with h | h | h <;> subst h <;> exact ⟨_, _, _, _, rfl⟩
    · rw [conduct_debate_r1b_err orch oracle user_query a1 _ hA hB] at hev
      simp at hev
      rcases hev with h | h <;> subst h <;> exact ⟨_, _, _, _, rfl⟩
  · rw [conduct_debate_r1a_err orch oracle user_query _ hA] at hev
    simp at hev
    rcases hev with h | h <;> subst h <;> exact ⟨_, _, _, _, rfl⟩

/-- C9: every outbound request issued during any debate carries
max_tokens = 4000 in its payload, for every call of every round and every
participant. -/
theorem requests_carry_max_tokens (orch : DebateOrchestrator)
    (oracle : CallId → Nat → Except CallError String) (user_query : String) :
    ∀ ev ∈ (conduct_debate orch oracle user_query).1,
      ev.req.payload.max_tokens = 4000 := by
  intro ev hev
  obtain ⟨sp, um, t, mn, hreq⟩ := conduct_debate_req_from_build orch oracle user_query ev hev
  rw [hreq]
  rfl

/-- Witness for C9: the round1_a request of a concrete all-success debate is
in the trace and carries max_tokens = 4000. -/
theorem requests_carry_max_tokens_witness :
    (⟨CallId.round1_a,
      build_request testConfig get_member_a_prompt "Q"
        testConfig.member_a.temperature testConfig.member_a.deployment_name,
      [AttemptEvent.attempt 0]⟩ : DebateEvent) ∈ (conduct_debate testOrch okOracle "Q").1
    ∧ (⟨CallId.round1_a,
        build_request testConfig get_member_a_prompt "Q"
          testConfig.member_a.temperature testConfig.member_a.deployment_name,
        [AttemptEvent.attempt 0]⟩ : DebateEvent).req.payload.max_tokens = 4000 := by
  have hA : (call_attempts (okOracle CallId.round1_a) 3).2 = some (Except.ok "A1") := rfl
  have hB : (call_attempts (okOracle CallId.round1_b) 3).2 = some (Except.ok "B1") := rfl
  have hC : (call_attempts (okOracle CallId.round2_a) 3).2 = some (Except.ok "A2") := rfl
  have hD : (call_attempts (okOracle CallId.round2_b) 3).2 = some (Except.ok "B2") := rfl
  have hE : (call_attempts (okOracle CallId.round3_chair) 3).2 = some (Except.ok "C1") := rfl
  have htr := conduct_debate_all_ok testOrch okOracle "Q" "A1" "B1" "A2" "B2" "C1" hA hB hC hD hE
  have hmem : (⟨CallId.round1_a,
      build_request testConfig get_member_a_prompt "Q"
        testConfig.member_a.temperature testConfig.member_a.deployment_name,
      [AttemptEvent.attempt 0]⟩ : DebateEvent) ∈ (conduct_debate testOrch okOracle "Q").1 := by
    rw [htr]
    exact List.mem_cons_self _ _
  exact ⟨hmem, requests_carry_max_tokens testOrch okOracle "Q" _ hmem⟩

/-- A concrete configuration with no API key. -/
def noKeyConfig : CouncilConfig :=
  ⟨"https://example.services.ai.azure.com/api/projects/proj",
   none,
   ⟨"gpt-4.1", 7/10, "analytical", "Council Member A (Analytical - GPT-4.1)"⟩,
   ⟨"DeepSeek-V3.1", 7/10, "critical", "Council Member B (Critical - DeepSeek-V3.1)"⟩,
   ⟨"grok-3", 3/10, "chair", "Chair (Grok-3)"⟩,
   60⟩

/-- C8: with the API-key setting missing (or empty), constructing the
orchestrator fails with an error naming AZURE_AI_API_KEY; a successfully
constructed orchestrator always holds a non-missing key; and every request
of every debate carries the key of the constructed configuration. -/
theorem missing_api_key_blocks_construction :
    (∀ config : CouncilConfig, apiKeyMissing config.api_key = true →
      DebateOrchestrator.init config =
        Except.error "AZURE_AI_API_KEY is required. Please add your Azure AI Foundry API key to the .env file."
      ∧ textHas "AZURE_AI_API_KEY is required. Please add your Azure AI Foundry API key to the .env file."
          "AZURE_AI_API_KEY")
    ∧ (∀ (config : CouncilConfig) (orch : DebateOrchestrator),
        DebateOrchestrator.init config = Except.ok orch →
        apiKeyMissing orch.config.api_key = false)
    ∧ (∀ (orch : DebateOrchestrator) (oracle : CallId → Nat → Except CallError String)
        (user_query : String), ∀ ev ∈ (conduct_debate orch oracle user_query).1,
        ev.req.api_key = orch.config.api_key) := by
  refine ⟨?_, ?_, ?_⟩
  · intro config h
    exact ⟨by simp [DebateOrchestrator.init, h], by decide⟩
  · intro config orch h
    cases hk : apiKeyMissing config.api_key with
    | true => simp [DebateOrchestrator.init, hk] at h
    | false =>
      simp [DebateOrchestrator.init, hk] at h
      obtain rfl := h
      exact hk
  · intro orch oracle user_query ev hev
    obtain ⟨sp, um, t, mn, hreq⟩ := conduct_debate_req_from_build orch oracle user_query ev hev
    rw [hreq]
    rfl

/-- Witness for C8: constructing the orchestrator over the concrete keyless
configuration fails with the AZURE_AI_API_KEY error. -/
theorem missing_api_key_blocks_construction_witness :
    DebateOrchestrator.init noKeyConfig =
      Except.error "AZURE_AI_API_KEY is required. Please add your Azure AI Foundry API key to the .env file."
    ∧ textHas "AZURE_AI_API_KEY is required. Please add your Azure AI Foundry API key to the .env file."
        "AZURE_AI_API_KEY" :=
  missing_api_key_blocks_construction.1 noKeyConfig rfl

/-- C1: no round-2 or round-3 call is issued before its declared dependencies
have successfully resolved: a failed round-1 call leaves only the two round-1
calls in the trace and fails the debate; a failed round2_b call means the
chair is never invoked and the debate fails; and any round-2/round-3 event in
the trace implies its dependencies resolved successfully. -/
theorem debate_respects_dependencies (orch : DebateOrchestrator)
    (oracle : CallId → Nat → Except CallError String) (user_query : String) :
    (∀ e, (call_attempts (oracle CallId.round1_a) 3).2 = some (Except.error e) →
      (∀ ev ∈ (conduct_debate orch oracle user_query).1,
        ev.id = CallId.round1_a ∨ ev.id = CallId.round1_b)
      ∧ ∃ m, (conduct_debate orch oracle user_query).2 = Except.error m)
    ∧ (∀ e, (call_attempts (oracle CallId.round1_b) 3).2 = some (Except.error e) →
      (∀ ev ∈ (conduct_debate orch oracle user_query).1,
        ev.id = CallId.round1_a ∨ ev.id = CallId.round1_b)
      ∧ ∃ m, (conduct_debate orch oracle user_query).2 = Except.error m)
    ∧ (∀ e, (call_attempts (oracle CallId.round2_b) 3).2 = some (Except.error e) →
      (∀ ev ∈ (conduct_debate orch oracle user_query).1, ev.id ≠ CallId.round3_chair)
      ∧ ∃ m, (conduct_debate orch oracle user_query).2 = Except.error m)
    ∧ (∀ ev ∈ (conduct_debate orch oracle user_query).1,
        (ev.id = CallId.round2_a ∨ ev.id = CallId.round2_b ∨ ev.id = CallId.round3_chair) →
        (∃ va, (call_attempts (oracle CallId.round1_a) 3).2 = some (Except.ok va))
        ∧ (∃ vb, (call_attempts (oracle CallId.round1_b) 3).2 = some (Except.ok vb)))
    ∧ (∀ ev ∈ (conduct_debate orch oracle user_query).1, ev.id = CallId.round3_chair →
        (∃ v2a, (call_attempts (oracle CallId.round2_a) 3).2 = some (Except.ok v2a))
        ∧ (∃ v2b, (call_attempts (oracle CallId.round2_b) 3).2 = some (Except.ok v2b)))
    ∧ (∀ ev ∈ (conduct_debate orch oracle user_query).1, ev.id = CallId.round2_b →
        ∃ v2a, (call_attempts (oracle CallId.round2_a) 3).2 = some (Except.ok v2a)) := by
  refine ⟨?_, ?_, ?_, ?_, ?_, ?_⟩
  · intro e hA
    rw [conduct_debate_r1a_err orch oracle user_query e hA]
    refine ⟨?_, ⟨_, rfl⟩⟩
    intro ev hev
    simp at hev
    rcases hev with h | h <;> subst h <;> simp
  · intro e hB
    rcases call_attempts_three_shape (oracle CallId.round1_a) with ⟨a1, hA⟩ | ⟨eA, -, hA⟩
    · rw [conduct_debate_r1b_err orch oracle user_query a1 e hA hB]
      refine ⟨?_, ⟨_, rfl⟩⟩
      intro ev hev
      simp at hev
      rcases hev with h | h <;> subst h <;> simp
    · rw [conduct_debate_r1a_err orch oracle user_query _ hA]
      refine ⟨?_, ⟨_, rfl⟩⟩
      intro ev hev
      simp at hev
      rcases hev with h | h <;> subst h <;> simp
  · intro e hD
    rcases call_attempts_three_shape (oracle CallId.round1_a) with ⟨a1, hA⟩ | ⟨eA, -, hA⟩
    · rcases call_attempts_three_shape (oracle CallId.round1_b) with ⟨b1, hB⟩ | ⟨eB, -, hB⟩
      · rcases call_attempts_three_shape (oracle CallId.round2_a) with ⟨a2, hC⟩ | ⟨eC, -, hC⟩
        · rw [conduct_debate_r2b_err orch oracle user_query a1 b1 a2 e hA hB hC hD]
          refine ⟨?_, ⟨_, rfl⟩⟩
          intro ev hev
          simp at hev
          rcases hev with h | h | h | h <;> subst h <;> simp
        · rw [conduct_debate_r2a_err orch oracle user_query a1 b1 _ hA hB hC]
          refine ⟨?_, ⟨_, rfl⟩⟩
          intro ev hev
          simp at hev
          rcases hev with h | h | h <;> subst h <;> simp
      · rw [conduct_debate_r1b_err orch oracle user_query a1 _ hA hB]
        refine ⟨?_, ⟨_, rfl⟩⟩
        intro ev hev
        simp at hev
        rcases hev with h | h <;> subst h <;> simp
    · rw [conduct_debate_r1a_err orch oracle user_query _ hA]
      refine ⟨?_, ⟨_, rfl⟩⟩
      intro ev hev
      simp at hev
      rcases hev with h | h <;> subst h <;> simp
  · intro ev hev hid
    rcases call_attempts_three_shape (oracle CallId.round1_a) with ⟨a1, hA⟩ | ⟨eA, -, hA⟩
    · rcases call_attempts_three_shape (oracle CallId.round1_b) with ⟨b1, hB⟩ | ⟨eB, -, hB⟩
      · exact ⟨⟨a1, hA⟩, ⟨b1, hB⟩⟩
      · rw [conduct_debate_r1b_err orch oracle user_query a1 _ hA hB] at hev
        simp at hev
        rcases hev with h | h <;> subst h <;> simp at hid
    · rw [conduct_debate_r1a_err orch oracle user_query _ hA] at hev
      simp at hev
      rcases hev with h | h <;> subst h <;> simp at hid
  · intro ev hev hid
    rcases call_attempts_three_shape (oracle CallId.round1_a) with ⟨a1, hA⟩ | ⟨eA, -, hA⟩
    · rcases call_attempts_three_shape (oracle CallId.round1_b) with ⟨b1, hB⟩ | ⟨eB, -, hB⟩
      · rcases call_attempts_three_shape (oracle CallId.round2_a) with ⟨a2, hC⟩ | ⟨eC, -, hC⟩
        · rcases call_attempts_three_shape (oracle CallId.round2_b) with ⟨b2, hD⟩ | ⟨eD, -, hD⟩
          · exact ⟨⟨a2, hC⟩, ⟨b2, hD⟩⟩
          · rw [conduct_debate_r2b_err orch oracle user_query a1 b1 a2 _ hA hB hC hD] at hev
            simp at hev
            rcases hev with h | h | h | h <;> subst h <;> simp at hid
        · rw [conduct_debate_r2a_err orch oracle user_query a1 b1 _ hA hB hC] at hev
          simp at hev
          rcases hev with h | h | h <;> subst h <;> simp at hid
      · rw [conduct_debate_r1b_err orch oracle user_query a1 _ hA hB] at hev
        simp at hev
        rcases hev with h | h <;> subst h <;> simp at hid
    · rw [conduct_debate_r1a_err orch oracle user_query _ hA] at hev
      simp at hev
      rcases hev with h | h <;> subst h <;> simp at hid
  · intro ev hev hid
    rcases call_attempts_three_shape (oracle CallId.round1_a) with ⟨a1, hA⟩ | ⟨eA, -, hA⟩
    · rcases call_attempts_three_shape (oracle CallId.round1_b) with ⟨b1, hB⟩ | ⟨eB, -, hB⟩
      · rcases call_attempts_three_shape (oracle CallId.round2_a) with ⟨a2, hC⟩ | ⟨eC, -, hC⟩
        · exact ⟨a2, hC⟩
        · rw [conduct_debate_r2a_err orch oracle user_query a1 b1 _ hA hB hC] at hev
          simp at hev
          rcases hev with h | h | h <;> subst h <;> simp at hid
      · rw [conduct_debate_r1b_err orch oracle user_query a1 _ hA hB] at hev
        simp at hev
        rcases hev with h | h <;> subst h <;> simp at hid
    · rw [conduct_debate_r1a_err orch oracle user_query _ hA] at hev
      simp at hev
      rcases hev with h | h <;> subst h <;> simp at hid

/-- Witness for C1: concrete debates exercising each hypothesis — a failing
round1_a, a failing round1_b, a failing round2_b, and the resolved
dependencies of concrete round-2/round-3 events. -/
theorem debate_respects_dependencies_witness :
    ((∀ ev ∈ (conduct_debate testOrch failAOracle "Q").1,
        ev.id = CallId.round1_a ∨ ev.id = CallId.round1_b)
      ∧ ∃ m, (conduct_debate testOrch failAOracle "Q").2 = Except.error m)
    ∧ ((∀ ev ∈ (conduct_debate testOrch failBOracle "Q").1,
        ev.id = CallId.round1_a ∨ ev.id = CallId.round1_b)
      ∧ ∃ m, (conduct_debate testOrch failBOracle "Q").2 = Except.error m)
    ∧ ((∀ ev ∈ (conduct_debate testOrch fail2BOracle "Q").1,
        ev.id ≠ CallId.round3_chair)
      ∧ ∃ m, (conduct_debate testOrch fail2BOracle "Q").2 = Except.error m)
    ∧ ((∃ va, (call_attempts (okOracle CallId.round1_a) 3).2 = some (Except.ok va))
      ∧ (∃ vb, (call_attempts (okOracle CallId.round1_b) 3).2 = some (Except.ok vb)))
    ∧ ((∃ v2a, (call_attempts (okOracle CallId.round2_a) 3).2 = some (Except.ok v2a))
      ∧ (∃ v2b, (call_attempts (okOracle CallId.round2_b) 3).2 = some (Except.ok v2b)))
    ∧ (∃ v2a, (call_attempts (okOracle CallId.round2_a) 3).2 = some (Except.ok v2a)) := by
  have hA : (call_attempts (okOracle CallId.round1_a) 3).2 = some (Except.ok "A1") := rfl
  have hB : (call_attempts (okOracle CallId.round1_b) 3).2 = some (Except.ok "B1") := rfl
  have hC : (call_attempts (okOracle CallId.round2_a) 3).2 = some (Except.ok "A2") := rfl
  have hD : (call_attempts (okOracle CallId.round2_b) 3).2 = some (Except.ok "B2") := rfl
  have hE : (call_attempts (okOracle CallId.round3_chair) 3).2 = some (Except.ok "C1") := rfl
  have htr := conduct_debate_all_ok testOrch okOracle "Q" "A1" "B1" "A2" "B2" "C1" hA hB hC hD hE
  have hmem2a : (⟨CallId.round2_a,
      build_request testConfig get_member_a_prompt (get_round2_prompt_for_member_a "Q" "B1")
        testConfig.member_a.temperature testConfig.member_a.deployment_name,
      [AttemptEvent.attempt 0]⟩ : DebateEvent) ∈ (conduct_debate testOrch okOracle "Q").1 := by
    rw [htr]
    exact List.mem_cons_of_mem _ (List.mem_cons_of_mem _ (List.mem_cons_self _ _))
  have hmem2b : (⟨CallId.round2_b,
      build_request testConfig get_member_b_prompt
        (get_round2_prompt_for_member_b "Q" "A1" "A2")
        testConfig.member_b.temperature testConfig.member_b.deployment_name,
      [AttemptEvent.attempt 0]⟩ : DebateEvent) ∈ (conduct_debate testOrch okOracle "Q").1 := by
    rw [htr]
    exact List.mem_cons_of_mem _ (List.mem_cons_of_mem _ (List.mem_cons_of_mem _
      (List.mem_cons_self _ _)))
  have hmem3 : (⟨CallId.round3_chair,
      build_request testConfig get_chair_prompt
        (get_chair_synthesis_prompt "Q" "A1" "B1" "A2" "B2")
        testConfig.chair.temperature testConfig.chair.deployment_name,
      [AttemptEvent.attempt 0]⟩ : DebateEvent) ∈ (conduct_debate testOrch okOracle "Q").1 := by
    rw [htr]
    exact List.mem_cons_of_mem _ (List.mem_cons_of_mem _ (List.mem_cons_of_mem _
      (List.mem_cons_of_mem _ (List.mem_cons_self _ _))))
  refine ⟨?_, ?_, ?_, ?_, ?_, ?_⟩
  · exact (debate_respects_dependencies testOrch failAOracle "Q").1 _ rfl
  · exact (debate_respects_dependencies testOrch failBOracle "Q").2.1 _ rfl
  · exact (debate_respects_dependencies testOrch fail2BOracle "Q").2.2.1 _ rfl
  · exact (debate_respects_dependencies testOrch okOracle "Q").2.2.2.1 _ hmem2a (Or.inl rfl)
  · exact (debate_respects_dependencies testOrch okOracle "Q").2.2.2.2.1 _ hmem3 rfl
  · exact (debate_respects_dependencies testOrch okOracle "Q").2.2.2.2.2 _ hmem2b rfl

/-- C4: the debate is atomic — a returned result carries all five round
responses, each being the successful value of its model call, and the round-1
requests carry the original query as the user message; any failure raises
instead (no partial result). -/
theorem debate_atomicity (orch : DebateOrchestrator)
    (oracle : CallId → Nat → Except CallError String) (user_query : String) :
    ∀ r : Responses, (conduct_debate orch oracle user_query).2 = Except.ok r →
      (call_attempts (oracle CallId.round1_a) 3).2 = some (Except.ok r.round1_member_a)
      ∧ (call_attempts (oracle CallId.round1_b) 3).2 = some (Except.ok r.round1_member_b)
      ∧ (call_attempts (oracle CallId.round2_a) 3).2 = some (Except.ok r.round2_member_a)
      ∧ (call_attempts (oracle CallId.round2_b) 3).2 = some (Except.ok r.round2_member_b)
      ∧ (call_attempts (oracle CallId.round3_chair) 3).2 = some (Except.ok r.round3_chair)
      ∧ (∀ ev ∈ (conduct_debate orch oracle user_query).1,
          (ev.id = CallId.round1_a →
            ev.req.payload.messages = [⟨"system", get_member_a_prompt⟩, ⟨"user", user_query⟩])
          ∧ (ev.id = CallId.round1_b →
            ev.req.payload.messages = [⟨"system", get_member_b_prompt⟩, ⟨"user", user_query⟩])) := by
  intro r hok
  rcases call_attempts_three_shape (oracle CallId.round1_a) with ⟨a1, hA⟩ | ⟨eA, -, hA⟩
  · rcases call_attempts_three_shape (oracle CallId.round1_b) with ⟨b1, hB⟩ | ⟨eB, -, hB⟩
    · rcases call_attempts_three_shape (oracle CallId.round2_a) with ⟨a2, hC⟩ | ⟨eC, -, hC⟩
      · rcases call_attempts_three_shape (oracle CallId.round2_b) with ⟨b2, hD⟩ | ⟨eD, -, hD⟩
        · rcases call_attempts_three_shape (oracle CallId.round3_chair) with ⟨c, hE⟩ | ⟨eE, -, hE⟩
          · have htr := conduct_debate_all_ok orch oracle user_query a1 b1 a2 b2 c hA hB hC hD hE
            rw [htr] at hok
            replace hok := Except.ok.inj hok
            subst hok
            refine ⟨hA, hB, hC, hD, hE, ?_⟩
            rw [htr]
            intro ev hev
            simp at hev
            rcases hev with h | h | h | h | h <;> subst h <;>
              exact ⟨fun hid => by first | rfl | simp at hid,
                     fun hid => by first | rfl | simp at hid⟩
          · rw [conduct_debate_r3_err orch oracle user_query a1 b1 a2 b2 _ hA hB hC hD hE] at hok
            simp at hok
        · rw [conduct_debate_r2b_err orch oracle user_query a1 b1 a2 _ hA hB hC hD] at hok
          simp at hok
      · rw [conduct_debate_r2a_err orch oracle user_query a1 b1 _ hA hB hC] at hok
        simp at hok
    · rw [conduct_debate_r1b_err orch oracle user_query a1 _ hA hB] at hok
      simp at hok
  · rw [conduct_debate_r1a_err orch oracle user_query _ hA] at hok
    simp at hok

/-- Witness for C4: a concrete all-success debate returns all five response
texts, and the theorem recovers the success of each call from that result. -/
theorem debate_atomicity_witness :
    (conduct_debate testOrch okOracle "Q").2 = Except.ok ⟨"A1", "B1", "A2", "B2", "C1"⟩
    ∧ (call_attempts (okOracle CallId.round1_a) 3).2 = some (Except.ok "A1")
    ∧ (call_attempts (okOracle CallId.round3_chair) 3).2 = some (Except.ok "C1") := by
  have h : (conduct_debate testOrch okOracle "Q").2 = Except.ok ⟨"A1", "B1", "A2", "B2", "C1"⟩ := by
    rw [conduct_debate_all_ok testOrch okOracle "Q" "A1" "B1" "A2" "B2" "C1" rfl rfl rfl rfl rfl]
  obtain ⟨h1, -, -, -, h5, -⟩ := debate_atomicity testOrch okOracle "Q" _ h
  exact ⟨h, h1, h5⟩

/-- C6: deterministic failure reporting for round 1 — when both round-1 calls
exhaust their retries the debate fails with the member_a error; when exactly
one fails the debate fails with the error of that call, even though the other
result was already obtained. -/
theorem round1_first_failure_wins (orch : DebateOrchestrator)
    (oracle : CallId → Nat → Except CallError String) (user_query : String) :
    (∀ ea eb, (call_attempts (oracle CallId.round1_a) 3).2 = some (Except.error ea) →
      (call_attempts (oracle CallId.round1_b) 3).2 = some (Except.error eb) →
      (conduct_debate orch oracle user_query).2 = Except.error (debate_fail ea))
    ∧ (∀ ea vb, (call_attempts (oracle CallId.round1_a) 3).2 = some (Except.error ea) →
      (call_attempts (oracle CallId.round1_b) 3).2 = some (Except.ok vb) →
      (conduct_debate orch oracle user_query).2 = Except.error (debate_fail ea))
    ∧ (∀ va eb, (call_attempts (oracle CallId.round1_a) 3).2 = some (Except.ok va) →
      (call_attempts (oracle CallId.round1_b) 3).2 = some (Except.error eb) →
      (conduct_debate orch oracle user_query).2 = Except.error (debate_fail eb)) := by
  refine ⟨?_, ?_, ?_⟩
  · intro ea eb hA hB
    rw [conduct_debate_r1a_err orch oracle user_query ea hA]
  · intro ea vb hA hB
    rw [conduct_debate_r1a_err orch oracle user_query ea hA]
  · intro va eb hA hB
    rw [conduct_debate_r1b_err orch oracle user_query va eb hA hB]

/-- Witness for C6: with both round-1 calls failing (messages fail-a and
fail-b) the debate reports the member_a error; with exactly one failing it
reports that error. -/
theorem round1_first_failure_wins_witness :
    (conduct_debate testOrch failBothOracle "Q").2 =
      Except.error "Debate execution failed: Model failed after 3 attempts: fail-a"
    ∧ (conduct_debate testOrch failAOracle "Q").2 =
      Except.error "Debate execution failed: Model failed after 3 attempts: fail-a"
    ∧ (conduct_debate testOrch failBOracle "Q").2 =
      Except.error "Debate execution failed: Model failed after 3 attempts: boom" := by
  refine ⟨?_, ?_, ?_⟩
  · exact (round1_first_failure_wins testOrch failBothOracle "Q").1 _ _ rfl rfl
  · exact (round1_first_failure_wins testOrch failAOracle "Q").2.1 _ "B1" rfl rfl
  · exact (round1_first_failure_wins testOrch failBOracle "Q").2.2 "A1" _ rfl rfl

/-- Counterexample for C5: in a concrete debate where only round1_b exhausts
its retries (underlying message boom), the raised debate-level error message
is exactly the wrapper plus the invoker message; it contains no reference to
the failing stage — neither round1 nor round nor member_b nor Member B occurs
in it. -/
theorem debate_error_names_stage_counterexample :
    (conduct_debate testOrch failBOracle "Q").2 =
      Except.error "Debate execution failed: Model failed after 3 attempts: boom"
    ∧ ¬ textHas "Debate execution failed: Model failed after 3 attempts: boom" "round1"
    ∧ ¬ textHas "Debate execution failed: Model failed after 3 attempts: boom" "round"
    ∧ ¬ textHas "Debate execution failed: Model failed after 3 attempts: boom" "member_b"
    ∧ ¬ textHas "Debate execution failed: Model failed after 3 attempts: boom" "Member B" := by
  refine ⟨?_, by decide, by decide, by decide, by decide⟩
  rw [conduct_debate_r1b_err testOrch failBOracle "Q" "A1"
    "Model failed after 3 attempts: boom" rfl rfl]
  rfl

/-- C5 as amended: every abort raises a single debate-level error whose
message is the fixed wrapper prefix followed by the underlying Model Invoker
error message (which it therefore contains verbatim), but the message does
not name the failing stage or participant. -/
theorem debate_failure_wraps_invoker_error (orch : DebateOrchestrator)
    (oracle : CallId → Nat → Except CallError String) (user_query : String) :
    (∀ e, (call_attempts (oracle CallId.round1_a) 3).2 = some (Except.error e) →
      (conduct_debate orch oracle user_query).2 = Except.error (debate_fail e)
      ∧ textHas (debate_fail e) e ∧ textHas (debate_fail e) "Debate execution failed")
    ∧ (∀ a1 e, (call_attempts (oracle CallId.round1_a) 3).2 = some (Except.ok a1) →
      (call_attempts (oracle CallId.round1_b) 3).2 = some (Except.error e) →
      (conduct_debate orch oracle user_query).2 = Except.error (debate_fail e)
      ∧ textHas (debate_fail e) e ∧ textHas (debate_fail e) "Debate execution failed")
    ∧ (∀ a1 b1 e, (call_attempts (oracle CallId.round1_a) 3).2 = some (Except.ok a1) →
      (call_attempts (oracle CallId.round1_b) 3).2 = some (Except.ok b1) →
      (call_attempts (oracle CallId.round2_a) 3).2 = some (Except.error e) →
      (conduct_debate orch oracle user_query).2 = Except.error (debate_fail e)
      ∧ textHas (debate_fail e) e ∧ textHas (debate_fail e) "Debate execution failed")
    ∧ (∀ a1 b1 a2 e, (call_attempts (oracle CallId.round1_a) 3).2 = some (Except.ok a1) →
      (call_attempts (oracle CallId.round1_b) 3).2 = some (Except.ok b1) →
      (call_attempts (oracle CallId.round2_a) 3).2 = some (Except.ok a2) →
      (call_attempts (oracle CallId.round2_b) 3).2 = some (Except.error e) →
      (conduct_debate orch oracle user_query).2 = Except.error (debate_fail e)
      ∧ textHas (debate_fail e) e ∧ textHas (debate_fail e) "Debate execution failed")
    ∧ (∀ a1 b1 a2 b2 e, (call_attempts (oracle CallId.round1_a) 3).2 = some (Except.ok a1) →
      (call_attempts (oracle CallId.round1_b) 3).2 = some (Except.ok b1) →
      (call_attempts (oracle CallId.round2_a) 3).2 = some (Except.ok a2) →
      (call_attempts (oracle CallId.round2_b) 3).2 = some (Except.ok b2) →
      (call_attempts (oracle CallId.round3_chair) 3).2 = some (Except.error e) →
      (conduct_debate orch oracle user_query).2 = Except.error (debate_fail e)
      ∧ textHas (debate_fail e) e ∧ textHas (debate_fail e) "Debate execution failed") := by
  have hpre : ∀ e : String, textHas (debate_fail e) "Debate execution failed" := by
    intro e
    have hsplit : ("Debate execution failed: " : String) =
        "Debate execution failed" ++ ": " := by decide
    show textHas ("Debate execution failed: " ++ e) "Debate execution failed"
    rw [hsplit]
    exact textHas_extend_right _ _ _ (textHas_extend_right _ _ _ (textHas_append_left _ ""))
  refine ⟨?_, ?_, ?_, ?_, ?_⟩
  · intro e hA
    rw [conduct_debate_r1a_err orch oracle user_query e hA]
    exact ⟨rfl, textHas_append_right _ e, hpre e⟩
  · intro a1 e hA hB
    rw [conduct_debate_r1b_err orch oracle user_query a1 e hA hB]
    exact ⟨rfl, textHas_append_right _ e, hpre e⟩
  · intro a1 b1 e hA hB hC
    rw [conduct_debate_r2a_err orch oracle user_query a1 b1 e hA hB hC]
    exact ⟨rfl, textHas_append_right _ e, hpre e⟩
  · intro a1 b1 a2 e hA hB hC hD
    rw [conduct_debate_r2b_err orch oracle user_query a1 b1 a2 e hA hB hC hD]
    exact ⟨rfl, textHas_append_right _ e, hpre e⟩
  · intro a1 b1 a2 b2 e hA hB hC hD hE
    rw [conduct_debate_r3_err orch oracle user_query a1 b1 a2 b2 e hA hB hC hD hE]
    exact ⟨rfl, textHas_append_right _ e, hpre e⟩

/-- Witness for the amended C5: the concrete round1_b failure yields the
wrapped message containing the invoker error. -/
theorem debate_failure_wraps_invoker_error_witness :
    (conduct_debate testOrch failBOracle "Q").2 =
      Except.error (debate_fail "Model failed after 3 attempts: boom")
    ∧ textHas (debate_fail "Model failed after 3 attempts: boom")
        "Model failed after 3 attempts: boom"
    ∧ textHas (debate_fail "Model failed after 3 attempts: boom")
        "Debate execution failed" :=
  (debate_failure_wraps_invoker_error testOrch failBOracle "Q").2.1 "A1" _ rfl rfl

/-- Containment is transitive through an intermediate substring. -/
theorem textHas_of_textHas (s mid sub : String) (hms : textHas s mid)
    (hsub : textHas mid sub) : textHas s sub :=
  List.IsInfix.trans hsub hms

/-- C7: the formatter output contains all five response texts, each directly
under its section header, and the Round 1, Round 2 and Round 3 section
headers appear in that order (the output decomposes around them).  The
formatter is a total function of the result and the configuration, so it is
deterministic and never fails by construction. -/
theorem format_output_sections (responses : Responses) (config : CouncilConfig) :
    textHas (format_debate_output responses config) responses.round1_member_a
    ∧ textHas (format_debate_output responses config) responses.round1_member_b
    ∧ textHas (format_debate_output responses config) responses.round2_member_a
    ∧ textHas (format_debate_output responses config) responses.round2_member_b
    ∧ textHas (format_debate_output responses config) responses.round3_chair
    ∧ textHas (format_debate_output responses config)
        ("###  " ++ config.member_a.display_name ++ "\n" ++ responses.round1_member_a)
    ∧ textHas (format_debate_output responses config)
        ("###  " ++ config.member_b.display_name ++ "\n" ++ responses.round1_member_b)
    ∧ textHas (format_debate_output responses config)
        ("###  Member A\x27s Critique\n" ++ responses.round2_member_a)
    ∧ textHas (format_debate_output responses config)
        ("###  Member B\x27s Response\n" ++ responses.round2_member_b)
    ∧ textHas (format_debate_output responses config)
        ("##  Round 3: Chair\x27s Final Verdict (" ++ config.chair.deployment_name ++
         ")\n\n" ++ responses.round3_chair)
    ∧ ∃ m1 m2 m3, format_debate_output responses config =
        "#  LLM Council Debate\n\n" ++ "##  Round 1: Independent Analysis" ++ m1 ++
        "##  Round 2: Chain-of-Debate" ++ m2 ++
        "##  Round 3: Chair\x27s Final Verdict (" ++ m3 := by
  have s1 : ("#  LLM Council Debate\n\n##  Round 1: Independent Analysis\n\n###  " : String) =
      "#  LLM Council Debate\n\n" ++ "##  Round 1: Independent Analysis" ++ "\n\n" ++ "###  " := by
    decide
  have s2 : ("\n\n---\n\n###  " : String) = "\n\n---\n\n" ++ "###  " := by decide
  have s3 : ("\n\n---\n\n##  Round 2: Chain-of-Debate\n\n###  Member A\x27s Critique\n" : String) =
      "\n\n---\n\n" ++ "##  Round 2: Chain-of-Debate" ++ "\n\n" ++ "###  Member A\x27s Critique\n" := by
    decide
  have s4 : ("\n\n---\n\n###  Member B\x27s Response\n" : String) =
      "\n\n---\n\n" ++ "###  Member B\x27s Response\n" := by decide
  have s5 : ("\n\n---\n\n##  Round 3: Chair\x27s Final Verdict (" : String) =
      "\n\n---\n\n" ++ "##  Round 3: Chair\x27s Final Verdict (" := by decide
  have key : format_debate_output responses config =
      "#  LLM Council Debate\n\n" ++ "##  Round 1: Independent Analysis" ++
      ("\n\n" ++ "###  " ++ config.member_a.display_name ++ "\n" ++ responses.round1_member_a ++
       "\n\n---\n\n" ++ "###  " ++ config.member_b.display_name ++ "\n" ++ responses.round1_member_b ++
       "\n\n---\n\n") ++
      "##  Round 2: Chain-of-Debate" ++
      ("\n\n" ++ "###  Member A\x27s Critique\n" ++ responses.round2_member_a ++
       "\n\n---\n\n" ++ "###  Member B\x27s Response\n" ++ responses.round2_member_b ++
       "\n\n---\n\n") ++
      "##  Round 3: Chair\x27s Final Verdict (" ++
      (config.chair.deployment_name ++ ")\n\n" ++ responses.round3_chair ++ "\n") := by
    simp only [format_debate_output]
    rw [s1, s2, s3, s4, s5]
    simp only [String.append_assoc]
  have hm1a : textHas
      ("\n\n" ++ "###  " ++ config.member_a.display_name ++ "\n" ++ responses.round1_member_a ++
       "\n\n---\n\n" ++ "###  " ++ config.member_b.display_name ++ "\n" ++ responses.round1_member_b ++
       "\n\n---\n\n")
      ("###  " ++ config.member_a.display_name ++ "\n" ++ responses.round1_member_a) := by
    have e : ("\n\n" ++ "###  " ++ config.member_a.display_name ++ "\n" ++ responses.round1_member_a ++
       "\n\n---\n\n" ++ "###  " ++ config.member_b.display_name ++ "\n" ++ responses.round1_member_b ++
       "\n\n---\n\n" : String) =
        "\n\n" ++ ("###  " ++ config.member_a.display_name ++ "\n" ++ responses.round1_member_a) ++
        ("\n\n---\n\n" ++ "###  " ++ config.member_b.display_name ++ "\n" ++
         responses.round1_member_b ++ "\n\n---\n\n") := by
      simp only [String.append_assoc]
    rw [e]
    exact textHas_of_append _ _ _
  have hm1b : textHas
      ("\n\n" ++ "###  " ++ config.member_a.display_name ++ "\n" ++ responses.round1_member_a ++
       "\n\n---\n\n" ++ "###  " ++ config.member_b.display_name ++ "\n" ++ responses.round1_member_b ++
       "\n\n---\n\n")
      ("###  " ++ config.member_b.display_name ++ "\n" ++ responses.round1_member_b) := by
    have e : ("\n\n" ++ "###  " ++ config.member_a.display_name ++ "\n" ++ responses.round1_member_a ++
       "\n\n---\n\n" ++ "###  " ++ config.member_b.display_name ++ "\n" ++ responses.round1_member_b ++
       "\n\n---\n\n" : String) =
        ("\n\n" ++ "###  " ++ config.member_a.display_name ++ "\n" ++ responses.round1_member_a ++
         "\n\n---\n\n") ++
        ("###  " ++ config.member_b.display_name ++ "\n" ++ responses.round1_member_b) ++
        "\n\n---\n\n" := by
      simp only [String.append_assoc]
    rw [e]
    exact textHas_of_append _ _ _
  have hm2a : textHas
      ("\n\n" ++ "###  Member A\x27s Critique\n" ++ responses.round2_member_a ++
       "\n\n---\n\n" ++ "###  Member B\x27s Response\n" ++ responses.round2_member_b ++
       "\n\n---\n\n")
      ("###  Member A\x27s Critique\n" ++ responses.round2_member_a) := by
    have e : ("\n\n" ++ "###  Member A\x27s Critique\n" ++ responses.round2_member_a ++
       "\n\n---\n\n" ++ "###  Member B\x27s Response\n" ++ responses.round2_member_b ++
       "\n\n---\n\n" : String) =
        "\n\n" ++ ("###  Member A\x27s Critique\n" ++ responses.round2_member_a) ++
        ("\n\n---\n\n" ++ "###  Member B\x27s Response\n" ++ responses.round2_member_b ++
         "\n\n---\n\n") := by
      simp only [String.append_assoc]
    rw [e]
    exact textHas_of_append _ _ _
  have hm2b : textHas
      ("\n\n" ++ "###  Member A\x27s Critique\n" ++ responses.round2_member_a ++
       "\n\n---\n\n" ++ "###  Member B\x27s Response\n" ++ responses.round2_member_b ++
       "\n\n---\n\n")
      ("###  Member B\x27s Response\n" ++ responses.round2_member_b) := by
    have e : ("\n\n" ++ "###  Member A\x27s Critique\n" ++ responses.round2_member_a ++
       "\n\n---\n\n" ++ "###  Member B\x27s Response\n" ++ responses.round2_member_b ++
       "\n\n---\n\n" : String) =
        ("\n\n" ++ "###  Member A\x27s Critique\n" ++ responses.round2_member_a ++ "\n\n---\n\n") ++
        ("###  Member B\x27s Response\n" ++ responses.round2_member_b) ++
        "\n\n---\n\n" := by
      simp only [String.append_assoc]
    rw [e]
    exact textHas_of_append _ _ _
  have hm3 : textHas
      (config.chair.deployment_name ++ ")\n\n" ++ responses.round3_chair ++ "\n")
      responses.round3_chair :=
    textHas_extend_right _ _ _ (textHas_append_right _ _)
  have lift1 : ∀ sub, textHas
      ("\n\n" ++ "###  " ++ config.member_a.display_name ++ "\n" ++ responses.round1_member_a ++
       "\n\n---\n\n" ++ "###  " ++ config.member_b.display_name ++ "\n" ++ responses.round1_member_b ++
       "\n\n---\n\n") sub →
      textHas (format_debate_output responses config) sub := by
    intro sub h
    rw [key]
    exact textHas_extend_right _ _ _ (textHas_extend_right _ _ _ (textHas_extend_right _ _ _
      (textHas_extend_right _ _ _ (textHas_extend_left _ _ _ h))))
  have lift2 : ∀ sub, textHas
      ("\n\n" ++ "###  Member A\x27s Critique\n" ++ responses.round2_member_a ++
       "\n\n---\n\n" ++ "###  Member B\x27s Response\n" ++ responses.round2_member_b ++
       "\n\n---\n\n") sub →
      textHas (format_debate_output responses config) sub := by
    intro sub h
    rw [key]
    exact textHas_extend_right _ _ _ (textHas_extend_right _ _ _
      (textHas_extend_left _ _ _ h))
  have lift3 : ∀ sub, textHas
      (config.chair.deployment_name ++ ")\n\n" ++ responses.round3_chair ++ "\n") sub →
      textHas (format_debate_output responses config) sub := by
    intro sub h
    rw [key]
    exact textHas_extend_left _ _ _ h
  have h10 : textHas (format_debate_output responses config)
      ("##  Round 3: Chair\x27s Final Verdict (" ++ config.chair.deployment_name ++
       ")\n\n" ++ responses.round3_chair) := by
    have e : format_debate_output responses config =
        ("#  LLM Council Debate\n\n" ++ "##  Round 1: Independent Analysis" ++
         ("\n\n" ++ "###  " ++ config.member_a.display_name ++ "\n" ++ responses.round1_member_a ++
          "\n\n---\n\n" ++ "###  " ++ config.member_b.display_name ++ "\n" ++
          responses.round1_member_b ++ "\n\n---\n\n") ++
         "##  Round 2: Chain-of-Debate" ++
         ("\n\n" ++ "###  Member A\x27s Critique\n" ++ responses.round2_member_a ++
          "\n\n---\n\n" ++ "###  Member B\x27s Response\n" ++ responses.round2_member_b ++
          "\n\n---\n\n")) ++
        ("##  Round 3: Chair\x27s Final Verdict (" ++ config.chair.deployment_name ++
         ")\n\n" ++ responses.round3_chair) ++ "\n" := by
      rw [key]
      simp only [String.append_assoc]
    rw [e]
    exact textHas_of_append _ _ _
  refine ⟨?_, ?_, ?_, ?_, ?_, ?_, ?_, ?_, ?_, h10, ?_⟩
  · exact textHas_of_textHas _ _ _ (lift1 _ hm1a) (textHas_append_right _ _)
  · exact textHas_of_textHas _ _ _ (lift1 _ hm1b) (textHas_append_right _ _)
  · exact textHas_of_textHas _ _ _ (lift2 _ hm2a) (textHas_append_right _ _)
  · exact textHas_of_textHas _ _ _ (lift2 _ hm2b) (textHas_append_right _ _)
  · exact lift3 _ hm3
  · exact lift1 _ hm1a
  · exact lift1 _ hm1b
  · exact lift2 _ hm2a
  · exact lift2 _ hm2b
  · exact ⟨_, _, _, key⟩

/-- C10: an HTTP 200 response whose JSON body lacks the
choices/0/message/content path makes that attempt fail, and such failures are
retried under the same 3-attempt budget as transport errors and bad statuses:
three such responses exhaust the call, and one such response followed by a
parseable success consumes one retry and then succeeds. -/
theorem parse_failures_share_retry_budget (raw : Nat → HttpOutcome) :
    ((∀ n, n < 3 → ∃ s j e, raw n = HttpOutcome.response 200 s (Except.ok j)
        ∧ extract_content j = Except.error e) →
      ∃ s2 j2 e2, raw 2 = HttpOutcome.response 200 s2 (Except.ok j2)
        ∧ extract_content j2 = Except.error e2
        ∧ (call_attempts_http raw 3).1 =
            [AttemptEvent.attempt 0, AttemptEvent.sleep 1, AttemptEvent.attempt 1,
             AttemptEvent.sleep 2, AttemptEvent.attempt 2]
        ∧ (call_attempts_http raw 3).2 =
            some (Except.error (exhaust_msg 3 (CallError.exc e2.toMsg))))
    ∧ (∀ s j e v, raw 0 = HttpOutcome.response 200 s (Except.ok j) →
        extract_content j = Except.error e →
        attempt_outcome (raw 1) = Except.ok v →
        call_attempts_http raw 3 =
          ([AttemptEvent.attempt 0, AttemptEvent.sleep 1, AttemptEvent.attempt 1],
           some (Except.ok v))) := by
  constructor
  · intro h
    obtain ⟨s0, j0, e0, hr0, he0⟩ := h 0 (by norm_num)
    obtain ⟨s1, j1, e1, hr1, he1⟩ := h 1 (by norm_num)
    obtain ⟨s2, j2, e2, hr2, he2⟩ := h 2 (by norm_num)
    have o0 : attempt_outcome (raw 0) = Except.error (CallError.exc e0.toMsg) := by
      rw [hr0]; simp [attempt_outcome, he0]
    have o1 : attempt_outcome (raw 1) = Except.error (CallError.exc e1.toMsg) := by
      rw [hr1]; simp [attempt_outcome, he1]
    have o2 : attempt_outcome (raw 2) = Except.error (CallError.exc e2.toMsg) := by
      rw [hr2]; simp [attempt_outcome, he2]
    refine ⟨s2, j2, e2, hr2, he2, ?_, ?_⟩
    · unfold call_attempts_http
      rw [call_attempts_three]
      simp [o0, o1, o2]
    · unfold call_attempts_http
      rw [call_attempts_three]
      simp [o0, o1, o2]
  · intro s j e v hr0 he0 ho1
    have o0 : attempt_outcome (raw 0) = Except.error (CallError.exc e.toMsg) := by
      rw [hr0]; simp [attempt_outcome, he0]
    unfold call_attempts_http
    rw [call_attempts_three]
    simp [o0, ho1]

/-- An endpoint whose every attempt returns HTTP 200 with a JSON body that
has no choices field. -/
def badJsonRaw : Nat → HttpOutcome := fun _ => .response 200 "{}" (.ok (Json.obj []))

/-- A well-formed completion body. -/
def goodBody : Json :=
  Json.obj [("choices",
    Json.arr [Json.obj [("message", Json.obj [("content", Json.str "hello")])]])]

/-- An endpoint whose first attempt returns an unparseable 200 body and whose
later attempts return a well-formed one. -/
def recoverRaw : Nat → HttpOutcome := fun n =>
  if n = 0 then .response 200 "{}" (.ok (Json.obj [])) else .response 200 "ok" (.ok goodBody)

/-- Witness for C10: three missing-choices bodies exhaust the 3-attempt
budget with the KeyError text preserved; one bad body followed by a good one
retries once and succeeds. -/
theorem parse_failures_share_retry_budget_witness :
    (∃ s2 j2 e2, badJsonRaw 2 = HttpOutcome.response 200 s2 (Except.ok j2)
      ∧ extract_content j2 = Except.error e2
      ∧ (call_attempts_http badJsonRaw 3).1 =
          [AttemptEvent.attempt 0, AttemptEvent.sleep 1, AttemptEvent.attempt 1,
           AttemptEvent.sleep 2, AttemptEvent.attempt 2]
      ∧ (call_attempts_http badJsonRaw 3).2 =
          some (Except.error (exhaust_msg 3 (CallError.exc e2.toMsg))))
    ∧ call_attempts_http recoverRaw 3 =
        ([AttemptEvent.attempt 0, AttemptEvent.sleep 1, AttemptEvent.attempt 1],
         some (Except.ok (Json.str "hello"))) :=
  ⟨(parse_failures_share_retry_budget badJsonRaw).1
      (fun _ _ => ⟨"{}", Json.obj [], PyErr.keyError "choices", rfl, rfl⟩),
   (parse_failures_share_retry_budget recoverRaw).2 "{}" (Json.obj [])
      (PyErr.keyError "choices") (Json.str "hello") rfl rfl rfl⟩

end Debate
